import Mathlib

set_option maxRecDepth 10000

/-!
Verification development for the TP trading backend
(src/backend/candlestickData.py and src/backend/models.py).

Python floats are idealized as rationals, datetimes as integers or
ISO strings, and the relational store as in-memory lists of rows.
All background work in the source runs on a single cooperative
scheduler greenlet, so stateful code is embedded as explicit state
passing through pure functions.
-/

namespace TP

/-! ## Schema embedding (models.py)

Each SQLAlchemy column is recorded with its constraint flags exactly as
declared in models.py. -/

structure Column where
  name : String
  unique : Bool
  nullable : Bool
  primaryKey : Bool
deriving DecidableEq, Repr

/-- Columns of the `trade_records` table (models.py, class TradeRecord).
Note: `ticket` is declared `nullable=False` only; no `unique=True` flag. -/
def trade_records_columns : List Column := [
  ⟨"id", false, false, true⟩,
  ⟨"user_id", false, false, false⟩,
  ⟨"ticket", false, false, false⟩,
  ⟨"symbol", false, false, false⟩,
  ⟨"type", false, false, false⟩,
  ⟨"volume", false, false, false⟩,
  ⟨"entry_price", false, false, false⟩,
  ⟨"sl", false, true, false⟩,
  ⟨"tp", false, true, false⟩,
  ⟨"entry_time", false, true, false⟩,
  ⟨"exit_price", false, true, false⟩,
  ⟨"exit_time", false, true, false⟩,
  ⟨"profit_loss", false, true, false⟩,
  ⟨"change_percent", false, true, false⟩,
  ⟨"bot_id", false, true, false⟩,
  ⟨"bot_name", false, true, false⟩ ]

/-- Names of columns on which the database enforces distinctness
(unique constraints and primary keys). -/
def uniqueColumns (tbl : List Column) : List String :=
  (tbl.filter (fun c => c.unique || c.primaryKey)).map (fun c => c.name)

/-- One stored row of `trade_records`, with the autoincrement `id`. -/
structure TradeRecordRow where
  id : Int
  user_id : Int
  ticket : Int
  symbol : String
  type : String
  volume : ℚ
  entry_price : ℚ
  sl : Option ℚ
  tp : Option ℚ
  entry_time : Option String
  exit_price : Option ℚ
  exit_time : Option String
  profit_loss : ℚ
  change_percent : ℚ
  bot_id : Option String
  bot_name : Option String
deriving DecidableEq, Repr

def optQStr : Option ℚ → String
  | none => "NULL"
  | some q => toString q

def optSStr : Option String → String
  | none => "NULL"
  | some s => "S" ++ s

/-- Rendering of each `trade_records` column value of a row as a string,
used to state the uniqueness constraints the schema enforces. -/
def tradeRecordColVal (nm : String) (r : TradeRecordRow) : String :=
  if nm = "id" then toString r.id
  else if nm = "user_id" then toString r.user_id
  else if nm = "ticket" then toString r.ticket
  else if nm = "symbol" then r.symbol
  else if nm = "type" then r.type
  else if nm = "volume" then toString r.volume
  else if nm = "entry_price" then toString r.entry_price
  else if nm = "sl" then optQStr r.sl
  else if nm = "tp" then optQStr r.tp
  else if nm = "entry_time" then optSStr r.entry_time
  else if nm = "exit_price" then optQStr r.exit_price
  else if nm = "exit_time" then optSStr r.exit_time
  else if nm = "profit_loss" then toString r.profit_loss
  else if nm = "change_percent" then toString r.change_percent
  else if nm = "bot_id" then optSStr r.bot_id
  else if nm = "bot_name" then optSStr r.bot_name
  else ""

/-- Whether the database admits inserting row `r` next to the existing
rows: every column carrying a uniqueness constraint in the schema must
differ from every stored row.  This is all the store-level protection
the schema provides; it is independent of the application-level
lookup-then-insert check. -/
def insertAllowed (rows : List TradeRecordRow) (r : TradeRecordRow) : Prop :=
  ∀ nm ∈ uniqueColumns trade_records_columns, ∀ rOld ∈ rows,
    tradeRecordColVal nm r ≠ tradeRecordColVal nm rOld

instance (rows : List TradeRecordRow) (r : TradeRecordRow) :
    Decidable (insertAllowed rows r) := by
  unfold insertAllowed; infer_instance

/-- One stored row of `trade_configurations` (models.py,
class TradeConfiguration); every non-key column is nullable. -/
structure TradeConfigRow where
  ticket : Int
  user_id : Option Int
  bot_id : Option String
  bot_name : Option String
  strategy : Option String
  magic_number : Option Int
  entry_time : Option String
  profit_loss : Option ℚ
  change_percent : Option ℚ
  max_risk_per_trade : Option ℚ
  trade_size_usd : Option ℚ
  leverage : Option String
  asset_type : Option String
  risk_reward_ratio : Option ℚ
  stop_loss_pips : Option ℚ
  take_profit_pips : Option ℚ
  max_loss_threshold : Option ℚ
  entry_trigger : Option String
  exit_trigger : Option String
  max_daily_trades : Option Int
  time_window : Option String
  rsi_period : Option Int
  moving_average_period : Option Int
  bollinger_bands_period : Option Int
  bb_deviation : Option ℚ
  auto_stop_enabled : Option Bool
  max_consecutive_losses : Option Int
  auto_trading_enabled : Option Bool
deriving DecidableEq, Repr

/-- The row built by `TradeConfiguration(ticket=ticket)`: every other
column defaults to NULL. -/
def emptyConfigRow (t : Int) : TradeConfigRow :=
  ⟨t, none, none, none, none, none, none, none, none, none, none, none,
   none, none, none, none, none, none, none, none, none, none, none,
   none, none, none, none, none⟩

/-! ## The closed-trade dict and the persistence operations
(candlestickData.py store_trade_record, lines 295-391)

`ClosedTradeData` is the dict produced by `format_closed_trade_data`
and `format_basic_closed_trade` and consumed by `store_trade_record`.
Keys a producer may omit are `Option`s (a missing dict key reads as
`none`). -/

structure ClosedTradeData where
  id : Int
  ticket : Int
  timestamp : String
  time : Option String
  close_time : Option String
  symbol : String
  type : String
  volume : ℚ
  price : ℚ
  entry_price : ℚ
  exit_price : Option ℚ
  current_price : ℚ
  sl : Option ℚ
  tp : Option ℚ
  profit : Option ℚ
  raw_profit : ℚ
  commission : ℚ
  swap : ℚ
  change_percent : Option ℚ
  comment : String
  magic : Option Int
  is_open : Bool
  just_closed : Bool
  estimated : Option Bool
  bot_id : Option String
  bot_name : Option String
  is_bot_trade : Bool
  strategy : Option String
deriving DecidableEq, Repr

/-- Python truthiness-based `a or b` on optional strings: `None` and the
empty string are falsy. -/
def pyOrStr : Option String → Option String → Option String
  | some s, b => if s = "" then b else some s
  | none, b => b

/-- Python truthiness-based `a or b` on optional integers: `None` and
`0` are falsy. -/
def pyOrInt : Option Int → Option Int → Option Int
  | some n, b => if n = 0 then b else some n
  | none, b => b

/-- The `_parse_iso` helper of store_trade_record:
`datetime.fromisoformat(s.replace('Z','')) if s else None`.  Parsing is
modelled as the `Z` strip; an empty (falsy) string yields NULL. -/
def parse_iso : Option String → Option String
  | none => none
  | some s => if s = "" then none else some (s.replace "Z" "")

/-- The mutation applied to a `trade_configurations` row by
store_trade_record lines 356-382: identifier fields are set with
Python `or` (so filled when the stored value is falsy), `entry_time`
only when not yet set, and the outcome fields whenever the incoming
trade dict carries them non-null. -/
def applyConfigFill (uid : Int) (trade : ClosedTradeData) (cfg : TradeConfigRow) :
    TradeConfigRow :=
  { cfg with
    user_id := pyOrInt cfg.user_id (some uid),
    bot_id := pyOrStr cfg.bot_id trade.bot_id,
    bot_name := pyOrStr cfg.bot_name trade.bot_name,
    strategy := pyOrStr cfg.strategy trade.strategy,
    magic_number :=
      match trade.magic with
      | some m => pyOrInt cfg.magic_number (some m)
      | none => cfg.magic_number,
    entry_time :=
      match trade.time with
      | some et => if et ≠ "" ∧ cfg.entry_time = none
                   then some (et.replace "Z" "") else cfg.entry_time
      | none => cfg.entry_time,
    profit_loss :=
      match trade.profit with
      | some p => some p
      | none => cfg.profit_loss,
    change_percent :=
      match trade.change_percent with
      | some c => some c
      | none => cfg.change_percent }

/-- Update the first row satisfying `p` (SQLAlchemy `.first()` yields
one row object which is then mutated in place). -/
def updateFirst (p : α → Bool) (f : α → α) : List α → List α
  | [] => []
  | x :: xs => if p x then f x :: xs else x :: updateFirst p f xs

/-- The trade_configurations upsert performed by store_trade_record
lines 350-384: create the row if absent, then apply the fill. -/
def upsert_trade_config (uid : Int) (trade : ClosedTradeData)
    (cfgs : List TradeConfigRow) : List TradeConfigRow :=
  match cfgs.find? (fun c => c.ticket == trade.ticket) with
  | some _ => updateFirst (fun c => c.ticket == trade.ticket)
      (applyConfigFill uid trade) cfgs
  | none => cfgs ++ [applyConfigFill uid trade (emptyConfigRow trade.ticket)]

/-- The relational store: registered user ids plus the two trade
tables. -/
structure Db where
  users : List Int
  trade_records : List TradeRecordRow
  trade_configurations : List TradeConfigRow
deriving DecidableEq, Repr

/-- The TradeRecord row built at store_trade_record lines 329-345.  The
autoincrement id is modelled as one past the current row count. -/
def newTradeRecordRow (nextId uid : Int) (trade : ClosedTradeData) : TradeRecordRow :=
  { id := nextId
    user_id := uid
    ticket := trade.ticket
    symbol := trade.symbol
    type := trade.type
    volume := trade.volume
    entry_price := trade.entry_price
    sl := trade.sl
    tp := trade.tp
    entry_time := parse_iso trade.time
    exit_price := trade.exit_price
    exit_time := parse_iso trade.close_time
    profit_loss := trade.profit.getD 0
    change_percent := trade.change_percent.getD 0
    bot_id := trade.bot_id
    bot_name := trade.bot_name }

/-- store_trade_record (candlestickData.py lines 295-391), as invoked
from the background monitor greenlet (no request context): the user id
falls back to the lowest-id registered user; with no user at all the
RuntimeError aborts the call and the store is left unchanged.  The
record insert is guarded by the lookup-then-insert check; the
configuration upsert always runs. -/
def store_trade_record (trade : ClosedTradeData) (db : Db) : Db :=
  match db.users.min? with
  | none => db
  | some uid =>
    let db1 :=
      match db.trade_records.find? (fun r => r.ticket == trade.ticket) with
      | some _ => db
      | none => { db with trade_records :=
          db.trade_records ++
            [newTradeRecordRow ((db.trade_records.length : Int) + 1) uid trade] }
    { db1 with trade_configurations :=
        upsert_trade_config uid trade db1.trade_configurations }

/-- Number of `trade_records` rows stored for a ticket. -/
def countTicket (db : Db) (t : Int) : ℕ :=
  (db.trade_records.filter (fun r => r.ticket == t)).length

/-! ## Positions, deals and the closed-trade formatters
(candlestickData.py lines 1301-1606) -/

/-- An open-position snapshot entry as returned by the terminal
(`mt5.positions_get()`); `type` 0 is BUY, 1 is SELL. -/
structure Position where
  ticket : Int
  type : Int
  price_open : ℚ
  price_current : ℚ
  volume : ℚ
  sl : ℚ
  tp : ℚ
  profit : ℚ
  swap : ℚ
  commission : ℚ
  symbol : String
  comment : String
  magic : Int
  time : Int
deriving DecidableEq, Repr

/-- A historical deal as returned by `mt5.history_deals_get`;
`type` 0/1 are BUY/SELL fills, other values are balance operations. -/
structure Deal where
  ticket : Int
  position_id : Int
  type : Int
  price : ℚ
  profit : ℚ
  commission : ℚ
  swap : ℚ
  time : Int
  magic : Int
  comment : String
deriving DecidableEq, Repr

/-- Substring test, Python `pat in s`: splitting on the pattern yields
more than one piece exactly when the pattern occurs. -/
def hasSub (s pat : String) : Bool :=
  (s.splitOn pat).length ≥ 2

/-- Python truthiness-based `a or b` on plain integers (0 is falsy). -/
def pyOrIntVal (a b : Int) : Int := if a = 0 then b else a

/-- Python truthiness-based `a or b` on plain strings (the empty
string is falsy). -/
def pyOrStrVal (a b : String) : String := if a = "" then b else a

/-- ISO rendering of an epoch time, abstracted as its decimal digits
(injective, never empty, carries no information loss). -/
def isoOfTime (t : Int) : String := toString t

/-- Python `round(x, n)` on the idealized rational value of a float
(the half-way tie direction of binary floats is idealized). -/
def pyRound (x : ℚ) (n : ℕ) : ℚ := ((round (x * 10 ^ n) : ℤ) : ℚ) / 10 ^ n

structure BotAttribution where
  bot_id : String
  bot_name : String
  magic_number : Int
deriving DecidableEq, Repr

/-- Display name used for a live-registry hit:
`f"Bot {bot_id.split('_')[-1] if '_' in bot_id else bot_id}"`. -/
def liveBotName (bid : String) : String :=
  "Bot " ++ (if hasSub bid "_" then (bid.splitOn "_").getLastD bid else bid)

/-- _determine_bot_attribution (lines 1428-1474).  `bots` is the live
`bot_managers` registry as (bot_id, unique_magic_number) pairs in
registration order.  Method 1 scans the registry; method 2 extracts a
bot id embedded in a TradePulse comment; the reserved-range fallback
fires for a TradePulse comment without the embedded id as well as for
any magic number in [234000, 300000]; otherwise no attribution. -/
def determineBotAttribution (bots : List (String × Int)) (magic : Int)
    (comment : String) : Option BotAttribution :=
  match bots.find? (fun bm => bm.2 == magic) with
  | some bm => some ⟨bm.1, liveBotName bm.1, magic⟩
  | none =>
    if hasSub comment "TradePulse" ∧ hasSub comment "_bot_" then
      let part := (((comment.splitOn "_bot_").getD 1 "").splitOn "_").headD ""
      some ⟨"bot_" ++ part, "Bot " ++ part, magic⟩
    else if hasSub comment "TradePulse" ∧ 234000 ≤ magic ∧ magic ≤ 300000 then
      some ⟨"unknown", "TradePulse Bot", magic⟩
    else if 234000 ≤ magic ∧ magic ≤ 300000 then
      some ⟨"unknown", "TradePulse Bot", magic⟩
    else none

/-- format_closed_trade_data (lines 1363-1426): the deal-based closed
trade payload.  Note the produced dict carries NO `estimated` key. -/
def formatClosedTradeData (bots : List (String × Int)) (pos : Position)
    (deal : Deal) : ClosedTradeData :=
  let position_type := if pos.type = 0 then "BUY" else "SELL"
  let total_profit := deal.profit
  let commission := deal.commission
  let swap := deal.swap
  let final_profit := total_profit + commission + swap
  let open_price := pos.price_open
  let close_price := deal.price
  let change_percent : ℚ :=
    if 0 < open_price ∧ 0 < close_price then
      if pos.type = 0 then ((close_price - open_price) / open_price) * 100
      else ((open_price - close_price) / open_price) * 100
    else 0
  let magic_number := pyOrIntVal pos.magic deal.magic
  let comment := pyOrStrVal pos.comment deal.comment
  let bot_info := determineBotAttribution bots magic_number comment
  { id := pos.ticket
    ticket := pos.ticket
    timestamp := isoOfTime pos.time
    time := some (isoOfTime pos.time)
    close_time := some (isoOfTime deal.time)
    symbol := pos.symbol
    type := position_type
    volume := pos.volume
    price := open_price
    entry_price := open_price
    exit_price := some close_price
    current_price := close_price
    sl := some pos.sl
    tp := some pos.tp
    profit := some final_profit
    raw_profit := total_profit
    commission := commission
    swap := swap
    change_percent := some change_percent
    comment := comment
    magic := some magic_number
    is_open := false
    just_closed := true
    estimated := none
    bot_id := bot_info.map (fun b => b.bot_id)
    bot_name := bot_info.map (fun b => b.bot_name)
    is_bot_trade := bot_info.isSome
    strategy := none }

/-- format_basic_closed_trade (lines 1539-1606): the estimated closed
trade payload built from the last position snapshot alone; `now` is
`datetime.now()`. -/
def formatBasicClosedTrade (bots : List (String × Int)) (now : Int)
    (pos : Position) : ClosedTradeData :=
  let position_type := if pos.type = 0 then "BUY" else "SELL"
  let comment := pos.comment
  let magic_number := pos.magic
  let bot_info := determineBotAttribution bots magic_number comment
  let current_price := if pos.price_current = 0 then pos.price_open
                       else pos.price_current
  let open_price := pos.price_open
  let volume := pos.volume
  let estimated_profit : ℚ :=
    if 0 < open_price ∧ 0 < current_price then
      if pos.type = 0 then (current_price - open_price) * volume * 100
      else (open_price - current_price) * volume * 100
    else 0
  let change_percent : ℚ :=
    if 0 < open_price ∧ 0 < current_price then
      if pos.type = 0 then ((current_price - open_price) / open_price) * 100
      else ((open_price - current_price) / open_price) * 100
    else 0
  { id := pos.ticket
    ticket := pos.ticket
    timestamp := isoOfTime pos.time
    time := some (isoOfTime pos.time)
    close_time := some (isoOfTime now)
    symbol := pos.symbol
    type := position_type
    volume := pyRound volume 2
    price := pyRound open_price 5
    entry_price := pyRound open_price 5
    exit_price := some (pyRound current_price 5)
    current_price := pyRound current_price 5
    sl := some pos.sl
    tp := some pos.tp
    profit := some (pyRound estimated_profit 2)
    raw_profit := pyRound estimated_profit 2
    commission := 0
    swap := 0
    change_percent := some (pyRound change_percent 2)
    comment := comment
    magic := some magic_number
    is_open := false
    just_closed := true
    estimated := some true
    bot_id := bot_info.map (fun b => b.bot_id)
    bot_name := bot_info.map (fun b => b.bot_name)
    is_bot_trade := bot_info.isSome
    strategy := none }

/-! ## Close detection in the trade monitor
(candlestickData.py lines 938-1258) -/

/-- The closing-deal search of the immediate snapshot-diff path
(background_trade_monitor lines 952-959): first recent deal whose
position_id matches the closed ticket and whose type is a BUY or SELL
fill.  The entry side of the position is not consulted. -/
def selectClosingDeal (deals : List Deal) (ticket : Int) : Option Deal :=
  deals.find? (fun d => d.position_id == ticket && (d.type == 0 || d.type == 1))

/-- A `trade_update` push event with its payload. -/
structure TradeUpdateEvent where
  etype : String
  data : ClosedTradeData
deriving DecidableEq, Repr

/-- The immediate processing of freshly missing tickets
(background_trade_monitor lines 944-984): for each closed ticket,
emit one position_closed from the best available data (deal within
the 1-minute window, else the estimated record), and store it. -/
def monitorImmediateClosed (bots : List (String × Int)) (now : Int)
    (baseline : List Position) (closed : List Int) (deals1m : List Deal) :
    List TradeUpdateEvent :=
  closed.foldl (fun acc t =>
    match baseline.find? (fun p => p.ticket == t) with
    | none => acc
    | some pos =>
      let data := match selectClosingDeal deals1m t with
        | some d => formatClosedTradeData bots pos d
        | none => formatBasicClosedTrade bots now pos
      acc ++ [⟨"position_closed", data⟩]) []

/-- process_closed_positions (lines 1189-1258): for each closed ticket
scan the 15-minute deal window for any deal with matching position_id
(no type or side restriction), skipping deal tickets already consumed
for an earlier ticket of the same batch; emit a deal-based
position_closed on a hit, an estimated one otherwise. -/
def processClosedPositions (bots : List (String × Int)) (now : Int)
    (closed : List Int) (baseline : List Position) (deals15m : List Deal) :
    List TradeUpdateEvent :=
  (closed.foldl (fun acc t =>
    let events := acc.1
    let processed := acc.2
    match baseline.find? (fun p => p.ticket == t) with
    | none => (events, processed)
    | some pos =>
      match deals15m.find? (fun d =>
          !(processed.contains d.ticket) && d.position_id == t) with
      | some d =>
        (events ++ [⟨"position_closed", formatClosedTradeData bots pos d⟩],
         processed ++ [d.ticket])
      | none =>
        (events ++ [⟨"position_closed", formatBasicClosedTrade bots now pos⟩],
         processed))
    (([] : List TradeUpdateEvent), ([] : List Int))).1

/-- One monitor cycle's closed-position handling
(background_trade_monitor lines 938-987): the snapshot diff yields the
closed tickets, the immediate handler runs first, then
process_closed_positions runs over the same tickets. -/
def monitorCycleClosedEvents (bots : List (String × Int)) (now : Int)
    (baseline : List Position) (snapshotTickets : List Int)
    (deals1m deals15m : List Deal) : List TradeUpdateEvent :=
  let closed := (baseline.map (fun p => p.ticket)).filter
    (fun t => !(snapshotTickets.contains t))
  if closed.isEmpty then []
  else
    monitorImmediateClosed bots now baseline closed deals1m ++
    processClosedPositions bots now closed baseline deals15m

/-! ## Base-timeframe candle aggregation
(candlestickData.py background_price_updater, lines 622-716) -/

structure Candle where
  time : Int
  «open» : ℚ
  high : ℚ
  low : ℚ
  close : ℚ
deriving DecidableEq, Repr

/-- The per-iteration state of the base (1m) aggregator: the module
global `last_processed_m1_candle_time` and the `'1m'` entry of
`last_sent_candle_by_timeframe`. -/
structure M1State where
  lastProcessedTime : Int
  lastSent : Option Candle
deriving DecidableEq, Repr

/-- Initial aggregator state: `last_processed_m1_candle_time = 0`
(line 64) and no candle sent yet. -/
def m1InitialState : M1State := ⟨0, none⟩

/-- A base-timeframe emission together with its trigger flags. -/
structure M1Emission where
  isNewCandle : Bool
  isPriceRevision : Bool
  candle : Candle
deriving DecidableEq, Repr

/-- One iteration of the base-timeframe aggregator on a freshly polled
1m bar (lines 679-699): `is_new_candle` is a strict time comparison;
`is_price_update` additionally requires a previously sent candle whose
close, high or low differs; the candle is processed (emitted and
recorded) only if one of the two holds. -/
def m1Step (st : M1State) (bar : Candle) : M1State × Option M1Emission :=
  let is_new_candle := decide (bar.time > st.lastProcessedTime)
  let is_price_update := !is_new_candle &&
    (match st.lastSent with
     | some last => decide (bar.close ≠ last.close) ||
         decide (bar.high ≠ last.high) || decide (bar.low ≠ last.low)
     | none => false)
  if is_new_candle || is_price_update then
    ({ lastProcessedTime := if is_new_candle then bar.time
                            else st.lastProcessedTime,
       lastSent := some bar },
     some ⟨is_new_candle, is_price_update, bar⟩)
  else (st, none)

/-- Run the aggregator over a polled base-bar sequence, collecting the
emissions. -/
def m1Run (st : M1State) : List Candle → List M1Emission
  | [] => []
  | b :: bs =>
    match m1Step st b with
    | (st2, some e) => e :: m1Run st2 bs
    | (st2, none) => m1Run st2 bs

/-! ## The processed-deal set (candlestickData.py check_for_new_deals,
lines 998-1071)

`last_known_deals` is a Python `set`; its insertion history is kept
here as a duplicate-free list in insertion order so that recency is
expressible.  Python sets are unordered: `list(last_known_deals)`
enumerates in an implementation-defined order that is not the
insertion order, so the enumeration is a parameter constrained only to
be a permutation of the content. -/

/-- The additions performed by one check_for_new_deals pass (lines
1011-1022): each not-yet-known BUY or SELL deal ticket is added. -/
def addDealTickets (known : List Int) (deals : List Deal) : List Int :=
  deals.foldl (fun acc d =>
    if acc.contains d.ticket then acc
    else if d.type = 0 ∨ d.type = 1 then acc ++ [d.ticket]
    else acc) known

/-- The cleanup of lines 1065-1068:
`last_known_deals = set(list(last_known_deals)[-500:])` once the set
holds more than 1000 tickets, where `enum` is the set's enumeration
order. -/
def trimDeals (enum : List Int → List Int) (known : List Int) : List Int :=
  if known.length > 1000 then
    (enum known).drop ((enum known).length - 500)
  else known

/-- The net effect of one check_for_new_deals pass on the
processed-deal set. -/
def checkForNewDealsSet (enum : List Int → List Int) (known : List Int)
    (deals : List Deal) : List Int :=
  trimDeals enum (addDealTickets known deals)

/-- The property claimed of the trim: it keeps exactly the most
recently added 500 tickets (oldest-first eviction). -/
def keepsMostRecent500 (enum : List Int → List Int) : Prop :=
  ∀ (known : List Int) (deals : List Deal),
    (addDealTickets known deals).length > 1000 →
    checkForNewDealsSet enum known deals =
      (addDealTickets known deals).drop
        ((addDealTickets known deals).length - 500)

/-! ## Subscription handling and the per-request refresh
(candlestickData.py lines 622-838 and 3216-3363) -/

/-- The six timeframes known to the backend: the keys of
`timeframes_mt5_constants` (lines 452-459). -/
def timeframe_keys : List String := ["1m", "5m", "1h", "4h", "1d", "1w"]

/-- The five derived timeframes iterated by the price loop
(line 721). -/
def derived_timeframes : List String := ["5m", "1h", "4h", "1d", "1w"]

/-- Python dict assignment `client_timeframes[sid] = tf` on an
association-list model of the dict. -/
def setAssoc (m : List (String × String)) (k v : String) :
    List (String × String) :=
  if (m.find? (fun p => p.1 == k)).isSome then
    m.map (fun p => if p.1 == k then (k, v) else p)
  else m ++ [(k, v)]

/-- The stored timeframe of a client. -/
def lookupTf (m : List (String × String)) (sid : String) : Option String :=
  (m.find? (fun p => p.1 == sid)).map (fun p => p.2)

/-- handle_set_timeframe (lines 3237-3255): the requested timeframe
string is stored verbatim, with no validation, and a success
acknowledgment is emitted carrying it back. -/
def handle_set_timeframe (ct : List (String × String)) (sid : String)
    (data : Option String) : List (String × String) × String × String :=
  let timeframe := data.getD "1m"
  (setAssoc ct sid timeframe, ("success", timeframe))

/-- handle_request_update (lines 3216-3235): identical storage of the
verbatim timeframe string plus a success acknowledgment. -/
def handle_request_update (ct : List (String × String)) (sid : String)
    (data : Option String) : List (String × String) × String × String :=
  let timeframe := data.getD "1m"
  (setAssoc ct sid timeframe, ("success", timeframe))

/-- The clients the continuous price loop can emit a price_update to
in one iteration (lines 700-790): the 1m subscribers plus, for each of
the five derived timeframes, its subscribers.  No other subscription
value is ever served. -/
def cycleEmitTargets (ct : List (String × String)) : List String :=
  ((ct.filter (fun p => p.2 == "1m")).map (fun p => p.1)) ++
  (derived_timeframes.foldl (fun acc tf =>
    acc ++ (ct.filter (fun p => p.2 == tf)).map (fun p => p.1)) [])

/-- An emission of send_timeframe_update: the event name and, for
price updates, the timeframe tag put on the payload. -/
structure RefreshEmission where
  event : String
  timeframe : Option String
deriving DecidableEq, Repr

/-- The fallback of send_timeframe_update lines 3278-3280: an unknown
timeframe string is silently replaced by "1m" before anything else
happens. -/
def effectiveTf (tf : String) : String :=
  if timeframe_keys.contains tf then tf else "1m"

/-- send_timeframe_update (lines 3276-3363): the refresh is rate
limited at 1 s; with the terminal connected and a bar available the
bar is sent as a price_update tagged with the effective timeframe (a
second historical bar follows when available); otherwise a dummy
price_update plus a connection_status notice are sent.  In no branch
is an error reported for the unknown timeframe. -/
def send_timeframe_update (ratesFor : String → List Candle)
    (connected throttleOk : Bool) (tf : String) : List RefreshEmission :=
  if !throttleOk then []
  else if connected ∧ (ratesFor (effectiveTf tf)) ≠ [] then
    ⟨"price_update", some (effectiveTf tf)⟩ ::
      (if (ratesFor (effectiveTf tf)).length > 1 then
        [⟨"price_update", some (effectiveTf tf)⟩]
       else [])
  else
    [⟨"price_update", some (effectiveTf tf)⟩, ⟨"connection_status", none⟩]

/-! ## Concrete sample inputs used in counterexamples and witnesses -/

/-- A representative closed-trade dict for a given ticket, as emitted by
the deal-based formatter. -/
def mkTrade (t : Int) : ClosedTradeData :=
  { id := t, ticket := t, timestamp := "1000", time := some "2024-01-01T00:00:00Z",
    close_time := some "2024-01-01T01:00:00Z", symbol := "ETHUSD", type := "BUY",
    volume := 1, price := 100, entry_price := 100, exit_price := some 101,
    current_price := 101, sl := none, tp := none, profit := some 10,
    raw_profit := 10, commission := 0, swap := 0, change_percent := some 1,
    comment := "", magic := some 5, is_open := false, just_closed := true,
    estimated := none, bot_id := some "bot_1", bot_name := some "Bot 1",
    is_bot_trade := true, strategy := none }

/-- Two distinct trade_records rows sharing ticket 42. -/
def dupRowA : TradeRecordRow :=
  ⟨1, 1, 42, "ETHUSD", "BUY", 1, 100, none, none, none, some 101, none, 10, 1,
   none, none⟩

def dupRowB : TradeRecordRow :=
  ⟨2, 1, 42, "ETHUSD", "BUY", 1, 100, none, none, none, some 101, none, 10, 1,
   none, none⟩

/-- A tracked BUY position with ticket 7. -/
def posBuy7 : Position := ⟨7, 0, 100, 101, 1, 0, 0, 5, 0, 0, "ETHUSD", "", 0, 1000⟩

/-- A BUY deal on position 7: the same side as the entry of posBuy7
(a partial fill, or indeed the opening deal itself). -/
def dealBuy7 : Deal := ⟨900, 7, 0, 100, 0, 0, 0, 1010, 0, ""⟩

/-- A tracked BUY position with ticket 555. -/
def pos555 : Position := ⟨555, 0, 100, 102, 1, 0, 0, 20, 0, 0, "ETHUSD", "", 0, 1000⟩

/-- The SELL deal closing position 555 (opposite side to the entry). -/
def deal555 : Deal := ⟨901, 555, 1, 102, 20, 0, 0, 1060, 0, ""⟩

/-- The two base bars of the spec scenario: the same period start t = 0
with a revised close. -/
def bar0a : Candle := ⟨0, 100, 101, 99, 201 / 2⟩

def bar0b : Candle := ⟨0, 100, 101, 99, 1007 / 10⟩

/-- A stored configuration row for ticket 42 whose magic_number is the
non-null value 0. -/
def cfgMagicZero : TradeConfigRow := { emptyConfigRow 42 with magic_number := some 0 }

/-- An incoming closed trade for ticket 42 carrying magic number 5. -/
def tradeMagicFive : ClosedTradeData := mkTrade 42

/-- One thousand deal tickets already in the processed set, added in
ascending order 1, 2, ..., 1000. -/
def asc1000 : List Int := (List.range 1000).map (fun i => Int.ofNat i + 1)

/-- A new BUY deal whose ticket 1001 pushes the set over the trim
threshold. -/
def dealNew : Deal := ⟨1001, 0, 0, 0, 0, 0, 0, 0, 0, ""⟩

/-! # Theorems -/

/-- Claim C2, counterexample: the trade_records schema carries no
uniqueness constraint on the ticket column (models.py line 27 declares
it `nullable=False` only), so a second row with the same ticket 42 is
admitted by every uniqueness constraint the table does have; the
claimed store-level backstop does not exist. -/
theorem tradeRecords_ticket_not_unique :
    (∀ c ∈ trade_records_columns, c.name = "ticket" → c.unique = false) ∧
    "ticket" ∉ uniqueColumns trade_records_columns ∧
    dupRowA.ticket = dupRowB.ticket ∧
    insertAllowed [dupRowA] dupRowB := by
  decide

/-- Claim C2, amended: the only distinctness the trade_records schema
enforces is on the primary key id; the ticket column has no uniqueness
constraint, so duplicate-ticket rows are admissible at the store level
and deduplication rests solely on the lookup-then-insert check. -/
theorem tradeRecords_unique_is_id_only :
    uniqueColumns trade_records_columns = ["id"] ∧
    "ticket" ∉ uniqueColumns trade_records_columns ∧
    insertAllowed [dupRowA] dupRowB ∧
    dupRowA.ticket = dupRowB.ticket ∧ dupRowA ≠ dupRowB := by
  decide

/-- Claim C3, counterexample: the closing-deal search of the immediate
path selects the BUY deal dealBuy7 for the closed BUY position
posBuy7 — a deal on the same side as the entry — because only
position_id and the BUY/SELL fill kind are checked, never the side;
the enhanced path likewise accepts it. -/
theorem sameSideDeal_selected :
    selectClosingDeal [dealBuy7] 7 = some dealBuy7 ∧
    dealBuy7.type = posBuy7.type ∧
    posBuy7.ticket = 7 ∧
    processClosedPositions [] 1100 [7] [posBuy7] [dealBuy7] =
      [⟨"position_closed", formatClosedTradeData [] posBuy7 dealBuy7⟩] := by
  exact ⟨rfl, rfl, rfl, rfl⟩

/-- Claim C3, amended: a deal selected as the closing deal always has
position_id equal to the closed ticket, and on the immediate path a
BUY or SELL type; the enhanced path requires only the position_id
match.  The side of the position entry is never compared, so a
same-side deal can be selected. -/
theorem selectClosingDeal_characterization :
    (∀ (deals : List Deal) (t : Int) (d : Deal),
      selectClosingDeal deals t = some d →
        d.position_id = t ∧ (d.type = 0 ∨ d.type = 1)) ∧
    (∀ (processed : List Int) (deals : List Deal) (t : Int) (d : Deal),
      deals.find? (fun x => !(processed.contains x.ticket) && x.position_id == t) =
        some d → d.position_id = t) := by
  constructor
  · intro deals t d h
    have hp := List.find?_some h
    simp only [Bool.and_eq_true, Bool.or_eq_true, beq_iff_eq] at hp
    exact hp
  · intro processed deals t d h
    have hp := List.find?_some h
    simp only [Bool.and_eq_true, beq_iff_eq] at hp
    exact hp.2

/-- Claim C3 amended, witness: the characterization applied to the
concrete same-side deal. -/
theorem selectClosingDeal_characterization_witness :
    dealBuy7.position_id = 7 ∧ (dealBuy7.type = 0 ∨ dealBuy7.type = 1) :=
  selectClosingDeal_characterization.1 [dealBuy7] 7 dealBuy7 (by decide)

/-- Claim C5, counterexample: on the base-bar sequence
[(t=0,O=100,H=101,L=99,C=100.5), (t=0,O=100,H=101,L=99,C=100.7)] the
aggregator emits nothing at all, not two emissions: the initial
last_processed_m1_candle_time is 0, so the first bar at t = 0 is not a
new candle (strict comparison), and with no previously emitted candle
no price revision can be detected either. -/
theorem m1Run_scenario_empty :
    m1Run m1InitialState [bar0a, bar0b] = [] ∧
    (m1Run m1InitialState [bar0a, bar0b]).length ≠ 2 := by
  decide

/-- Claim C5, amended: on the spec scenario the base aggregator
produces zero emissions; in general an emission happens exactly when
the bar starts strictly after lastProcessedBaseTime, or a previously
emitted candle exists whose close, high or low differs from the new
bar. -/
theorem m1Step_emits_iff :
    m1Run m1InitialState [bar0a, bar0b] = [] ∧
    ∀ (st : M1State) (bar : Candle),
      (m1Step st bar).2.isSome ↔
        (bar.time > st.lastProcessedTime ∨
          ∃ last, st.lastSent = some last ∧
            (bar.close ≠ last.close ∨ bar.high ≠ last.high ∨ bar.low ≠ last.low)) := by
  refine ⟨rfl, ?_⟩
  intro st bar
  cases hsent : st.lastSent with
  | none =>
    by_cases ht : st.lastProcessedTime < bar.time <;>
      simp [m1Step, hsent, ht]
  | some last =>
    by_cases ht : st.lastProcessedTime < bar.time
    · simp [m1Step, hsent, ht]
    · by_cases hc : bar.close = last.close <;>
        by_cases hh : bar.high = last.high <;>
        by_cases hl : bar.low = last.low <;>
        simp [m1Step, hsent, ht, hc, hh, hl]

/-- Helper: a live-registry bot display name always starts with
"Bot ", so it never equals the generic attribution name. -/
theorem liveBotName_ne_generic (b : String) : liveBotName b ≠ "TradePulse Bot" := by
  intro h
  unfold liveBotName at h
  have hd := congrArg String.data h
  rw [String.data_append] at hd
  have h1 : ("Bot ").data = 'B' :: ['o', 't', ' '] := rfl
  have h2 : ("TradePulse Bot").data = 'T' :: "radePulse Bot".data := rfl
  rw [h1, h2, List.cons_append] at hd
  exact absurd (List.cons.inj hd).1 (by decide)

/-- Claim C9: bot attribution resolution order.  A live-registry match
on the magic number always wins, even when the comment also matches
the generic TradePulse pattern with the magic number in the reserved
range, and the returned attribution (registry bot_id with derived
display name) is never the generic unknown-bot one; with no registry
match the comment-embedded bot id is used; failing that the reserved
range yields the generic attribution; otherwise there is none. -/
theorem botAttribution_precedence :
    (∀ (bots : List (String × Int)) (magic : Int) (comment : String)
        (bm : String × Int),
      bots.find? (fun b => b.2 == magic) = some bm →
        determineBotAttribution bots magic comment =
          some ⟨bm.1, liveBotName bm.1, magic⟩ ∧
        determineBotAttribution bots magic comment ≠
          some ⟨"unknown", "TradePulse Bot", magic⟩) ∧
    (∀ (bots : List (String × Int)) (magic : Int) (comment : String),
      bots.find? (fun b => b.2 == magic) = none →
      hasSub comment "TradePulse" = true → hasSub comment "_bot_" = true →
        determineBotAttribution bots magic comment =
          some ⟨"bot_" ++ (((comment.splitOn "_bot_").getD 1 "").splitOn "_").headD "",
                "Bot " ++ (((comment.splitOn "_bot_").getD 1 "").splitOn "_").headD "",
                magic⟩) ∧
    (∀ (bots : List (String × Int)) (magic : Int) (comment : String),
      bots.find? (fun b => b.2 == magic) = none →
      ¬(hasSub comment "TradePulse" = true ∧ hasSub comment "_bot_" = true) →
      234000 ≤ magic → magic ≤ 300000 →
        determineBotAttribution bots magic comment =
          some ⟨"unknown", "TradePulse Bot", magic⟩) ∧
    (∀ (bots : List (String × Int)) (magic : Int) (comment : String),
      bots.find? (fun b => b.2 == magic) = none →
      ¬(hasSub comment "TradePulse" = true ∧ hasSub comment "_bot_" = true) →
      ¬(234000 ≤ magic ∧ magic ≤ 300000) →
        determineBotAttribution bots magic comment = none) := by
  refine ⟨?_, ?_, ?_, ?_⟩
  · intro bots magic comment bm hfind
    constructor
    · simp [determineBotAttribution, hfind]
    · simp only [determineBotAttribution, hfind, ne_eq, Option.some_inj,
        BotAttribution.mk.injEq, not_and]
      intro _ hname
      exact absurd hname (liveBotName_ne_generic bm.1)
  · intro bots magic comment hfind htp hbot
    simp [determineBotAttribution, hfind, htp, hbot]
  · intro bots magic comment hfind hnp h1 h2
    by_cases htp : hasSub comment "TradePulse" = true
    · have hbot : ¬ hasSub comment "_bot_" = true := fun hb => hnp ⟨htp, hb⟩
      simp [determineBotAttribution, hfind, htp, hbot, h1, h2]
    · simp [determineBotAttribution, hfind, htp, h1, h2]
  · intro bots magic comment hfind hnp hnr
    by_cases htp : hasSub comment "TradePulse" = true
    · have hbot : ¬ hasSub comment "_bot_" = true := fun hb => hnp ⟨htp, hb⟩
      simp [determineBotAttribution, hfind, htp, hbot, hnr]
    · simp [determineBotAttribution, hfind, htp, hnr]

/-- Claim C9, witness: a registered bot ("bot_3", 250000) beats the
generic TradePulse attribution for a comment containing TradePulse
with magic 250000 in the reserved range. -/
theorem botAttribution_precedence_witness :
    determineBotAttribution [("bot_3", 250000)] 250000 "TradePulse trade" =
      some ⟨"bot_3", liveBotName "bot_3", 250000⟩ ∧
    determineBotAttribution [("bot_3", 250000)] 250000 "TradePulse trade" ≠
      some ⟨"unknown", "TradePulse Bot", 250000⟩ :=
  botAttribution_precedence.1 [("bot_3", 250000)] 250000 "TradePulse trade"
    ("bot_3", 250000) (by decide)

/-- Claim C6: when a tracked position disappears with no matching deal
in the lookback window, the produced record is the estimated one: the
estimated flag is set, the exit price is the last known current price,
the profit is approximated from it with the sign given by the side and
commission and swap are zero, and the enhanced lookup path emits
exactly this deal-free record. -/
theorem estimatedClose_fallback (bots : List (String × Int)) (now : Int)
    (pos : Position) (deals15 : List Deal)
    (hopen : 0 < pos.price_open) (hcur : 0 < pos.price_current)
    (hnd : ∀ d ∈ deals15, d.position_id ≠ pos.ticket) :
    (formatBasicClosedTrade bots now pos).estimated = some true ∧
    (formatBasicClosedTrade bots now pos).exit_price =
      some (pyRound pos.price_current 5) ∧
    (formatBasicClosedTrade bots now pos).profit =
      some (pyRound ((if pos.type = 0 then pos.price_current - pos.price_open
        else pos.price_open - pos.price_current) * pos.volume * 100) 2) ∧
    (formatBasicClosedTrade bots now pos).commission = 0 ∧
    (formatBasicClosedTrade bots now pos).swap = 0 ∧
    processClosedPositions bots now [pos.ticket] [pos] deals15 =
      [⟨"position_closed", formatBasicClosedTrade bots now pos⟩] := by
  have hcur0 : ¬ pos.price_current = 0 := ne_of_gt hcur
  have hfind : deals15.find? (fun d => d.position_id == pos.ticket) = none := by
    rw [List.find?_eq_none]
    intro d hd
    simpa using hnd d hd
  refine ⟨rfl, ?_, ?_, rfl, rfl, ?_⟩
  · simp [formatBasicClosedTrade, hcur0]
  · simp [formatBasicClosedTrade, hcur0, hopen, hcur]
  · simp [processClosedPositions, hfind]

/-- Claim C6, witness: the estimated fallback evaluated on the
concrete position 555 with an empty deal window. -/
theorem estimatedClose_fallback_witness :
    (formatBasicClosedTrade [] 1100 pos555).estimated = some true ∧
    (formatBasicClosedTrade [] 1100 pos555).exit_price =
      some (pyRound pos555.price_current 5) ∧
    (formatBasicClosedTrade [] 1100 pos555).profit =
      some (pyRound ((if pos555.type = 0
        then pos555.price_current - pos555.price_open
        else pos555.price_open - pos555.price_current) * pos555.volume * 100) 2) ∧
    (formatBasicClosedTrade [] 1100 pos555).commission = 0 ∧
    (formatBasicClosedTrade [] 1100 pos555).swap = 0 ∧
    processClosedPositions [] 1100 [pos555.ticket] [pos555] [] =
      [⟨"position_closed", formatBasicClosedTrade [] 1100 pos555⟩] :=
  estimatedClose_fallback [] 1100 pos555 [] (by norm_num [pos555])
    (by norm_num [pos555]) (by simp)

/-- Helper: overwriting the entry for a key makes it the first match
of a subsequent lookup, provided the key was present. -/
theorem find?_map_overwrite (qs : List (String × String)) (sid v : String)
    (h : (qs.find? (fun p => p.1 == sid)).isSome = true) :
    (qs.map (fun p => if p.1 == sid then (sid, v) else p)).find?
      (fun p => p.1 == sid) = some (sid, v) := by
  induction qs with
  | nil => simp at h
  | cons q qs ih =>
    by_cases hq : (q.1 == sid) = true
    · have step : ((sid, v) ::
          (qs.map fun p => if p.1 == sid then (sid, v) else p)).find?
            (fun p => p.1 == sid) = some (sid, v) :=
        List.find?_cons_of_pos _ (by simp)
      rw [List.map_cons, if_pos hq, step]
    · have step1 : (q ::
          (qs.map fun p => if p.1 == sid then (sid, v) else p)).find?
            (fun p => p.1 == sid) =
          (qs.map fun p => if p.1 == sid then (sid, v) else p).find?
            (fun p => p.1 == sid) :=
        List.find?_cons_of_neg _ hq
      have step2 : (q :: qs).find? (fun p => p.1 == sid) =
          qs.find? (fun p => p.1 == sid) :=
        List.find?_cons_of_neg _ hq
      rw [List.map_cons, if_neg hq, step1]
      apply ih
      rw [step2] at h
      exact h

/-- Helper: after a dict assignment the stored value for the key is
the assigned one. -/
theorem setAssoc_lookup (ct : List (String × String)) (sid v : String) :
    lookupTf (setAssoc ct sid v) sid = some v := by
  unfold setAssoc lookupTf
  by_cases h : (ct.find? (fun p => p.1 == sid)).isSome
  · rw [if_pos h, find?_map_overwrite ct sid v h]
    rfl
  · rw [if_neg h]
    rw [Option.not_isSome_iff_eq_none] at h
    rw [List.find?_append, h]
    simp

/-- Helper: membership in an accumulating fold of list appends. -/
theorem mem_foldl_append (f : String → List String) (l : List String)
    (a : List String) (x : String) :
    x ∈ l.foldl (fun acc tf => acc ++ f tf) a ↔ x ∈ a ∨ ∃ tf ∈ l, x ∈ f tf := by
  induction l generalizing a with
  | nil => simp
  | cons t ts ih =>
    rw [List.foldl_cons, ih]
    simp only [List.mem_append, List.mem_cons]
    constructor
    · rintro ((hx | hx) | ⟨tf, htf, hx⟩)
      · exact Or.inl hx
      · exact Or.inr ⟨t, Or.inl rfl, hx⟩
      · exact Or.inr ⟨tf, Or.inr htf, hx⟩
    · rintro (hx | ⟨tf, (rfl | htf), hx⟩)
      · exact Or.inl (Or.inl hx)
      · exact Or.inl (Or.inr hx)
      · exact Or.inr ⟨tf, htf, hx⟩

/-- Helper: anyone receiving a price_update from the continuous loop
has a subscription entry set to 1m or one of the five derived
timeframes. -/
theorem mem_cycleEmitTargets (ct : List (String × String)) (x : String)
    (hx : x ∈ cycleEmitTargets ct) :
    ∃ p ∈ ct, p.1 = x ∧ (p.2 = "1m" ∨ p.2 ∈ derived_timeframes) := by
  unfold cycleEmitTargets at hx
  rcases List.mem_append.mp hx with h1 | h2
  · obtain ⟨p, hp, he⟩ := List.mem_map.mp h1
    have hf := List.mem_filter.mp hp
    exact ⟨p, hf.1, he, Or.inl (by simpa using hf.2)⟩
  · rw [mem_foldl_append] at h2
    rcases h2 with h | ⟨tf, htf, hx2⟩
    · simp at h
    · obtain ⟨p, hp, he⟩ := List.mem_map.mp hx2
      have hf := List.mem_filter.mp hp
      have hptf : p.2 = tf := by simpa using hf.2
      exact ⟨p, hf.1, he, Or.inr (hptf ▸ htf)⟩

/-- Helper: in an association list with duplicate-free keys, a key
determines its value. -/
theorem assoc_value_unique (ct : List (String × String))
    (h : (ct.map Prod.fst).Nodup) (k a b : String)
    (ha : (k, a) ∈ ct) (hb : (k, b) ∈ ct) : a = b := by
  induction ct with
  | nil => simp at ha
  | cons q qs ih =>
    rw [List.map_cons, List.nodup_cons] at h
    rcases List.mem_cons.mp ha with ha1 | ha2 <;>
      rcases List.mem_cons.mp hb with hb1 | hb2
    · rw [← ha1] at hb1
      exact (Prod.mk.injEq _ _ _ _ ▸ hb1).2.symm
    · exfalso
      rw [← ha1] at h
      exact h.1 (by simpa using List.mem_map_of_mem Prod.fst hb2)
    · exfalso
      rw [← hb1] at h
      exact h.1 (by simpa using List.mem_map_of_mem Prod.fst ha2)
    · exact ih h.2 ha2 hb2

/-- Claim C10: the subscription interface stores any timeframe string
verbatim with a success acknowledgment (no validation); a client whose
stored timeframe is outside the six known ones is never an emission
target of the continuous price loop; and the per-request refresh
silently behaves exactly as a 1m refresh for an unknown timeframe
string, never reporting an error event. -/
theorem timeframe_no_validation :
    (∀ (ct : List (String × String)) (sid tf : String),
      lookupTf (handle_set_timeframe ct sid (some tf)).1 sid = some tf ∧
      (handle_set_timeframe ct sid (some tf)).2 = ("success", tf) ∧
      lookupTf (handle_request_update ct sid (some tf)).1 sid = some tf) ∧
    (∀ (ct : List (String × String)) (sid tf : String),
      (ct.map Prod.fst).Nodup → (sid, tf) ∈ ct → tf ∉ timeframe_keys →
      sid ∉ cycleEmitTargets ct) ∧
    (∀ (ratesFor : String → List Candle) (connected throttleOk : Bool)
        (tf : String),
      tf ∉ timeframe_keys →
      send_timeframe_update ratesFor connected throttleOk tf =
        send_timeframe_update ratesFor connected throttleOk "1m") ∧
    (∀ (ratesFor : String → List Candle) (connected throttleOk : Bool)
        (tf : String),
      ∀ e ∈ send_timeframe_update ratesFor connected throttleOk tf,
        e.event ≠ "error") := by
  refine ⟨?_, ?_, ?_, ?_⟩
  · intro ct sid tf
    exact ⟨setAssoc_lookup ct sid tf, rfl, setAssoc_lookup ct sid tf⟩
  · intro ct sid tf hnodup hmem hkeys hx
    obtain ⟨p, hp, hfst, hsnd⟩ := mem_cycleEmitTargets ct sid hx
    have hpp : (sid, p.2) ∈ ct := by
      have : p = (sid, p.2) := by
        cases p; simp_all
      exact this ▸ hp
    have hval : tf = p.2 := assoc_value_unique ct hnodup sid tf p.2 hmem hpp
    apply hkeys
    rw [hval]
    rcases hsnd with h | h
    · rw [h]; decide
    · revert h
      have : ∀ y ∈ derived_timeframes, y ∈ timeframe_keys := by decide
      exact this p.2
  · intro ratesFor connected throttleOk tf htf
    have hc : effectiveTf tf = effectiveTf "1m" := by
      have h1 : timeframe_keys.contains tf = false := by simpa using htf
      unfold effectiveTf
      rw [h1]
      simp
    rw [send_timeframe_update, send_timeframe_update, hc]
  · intro ratesFor connected throttleOk tf e he
    unfold send_timeframe_update at he
    split_ifs at he with h1 h2 h3
    · simp at he
    · simp only [List.mem_cons, List.mem_singleton, List.not_mem_nil,
        or_false] at he
      rcases he with rfl | rfl <;> simp
    · simp only [List.mem_cons, List.not_mem_nil, or_false] at he
      rw [he]
      simp
    · simp only [List.mem_cons, List.not_mem_nil, or_false] at he
      rcases he with rfl | rfl <;> simp

/-- Claim C10, witness: a client subscribed with the unknown string
"2m" is stored verbatim yet never targeted by the price loop. -/
theorem timeframe_no_validation_witness :
    ("c1" ∉ cycleEmitTargets [("c1", "2m")]) :=
  timeframe_no_validation.2.1 [("c1", "2m")] "c1" "2m" (by decide) (by decide)
    (by decide)

/-- Claim C7, counterexample: a stored configuration row holding the
non-null magic number 0 is overwritten by the incoming trade's magic
number 5 — the Python `or` fill treats every falsy stored value (0,
empty string) as absent, so a stored non-null configuration value IS
overwritten. -/
theorem configUpsert_overwrites_falsy :
    (upsert_trade_config 1 tradeMagicFive [cfgMagicZero]).map
        (fun c => c.magic_number) = [some 5] ∧
    cfgMagicZero.magic_number = some 0 ∧
    (some 0 : Option Int) ≠ none ∧
    cfgMagicZero.ticket = tradeMagicFive.ticket := by
  exact ⟨rfl, rfl, by decide, rfl⟩

/-- Helper: updating the first matching row leaves every
non-matching row in place. -/
theorem mem_updateFirst_of_not (p : α → Bool) (f : α → α) (l : List α)
    (x : α) (hx : x ∈ l) (hp : p x = false) : x ∈ updateFirst p f l := by
  induction l with
  | nil => simp at hx
  | cons y ys ih =>
    rcases List.mem_cons.mp hx with rfl | hx2
    · rw [updateFirst, if_neg (by simp [hp])]
      exact List.mem_cons_self x _
    · by_cases hy : p y = true
      · rw [updateFirst, if_pos hy]
        exact List.mem_cons_of_mem _ hx2
      · rw [updateFirst, if_neg hy]
        exact List.mem_cons_of_mem _ (ih hx2)

/-- Claim C7, amended: the configuration upsert performed at close
time creates the row if absent; on an existing row it fills the
identifier fields only when the stored value is null or Python-falsy
(a stored 0 or empty string is overwritten, contrary to the claim),
fills entry_time only when previously null, refreshes the outcome
fields exactly when the incoming trade provides them non-null, leaves
every other stored configuration parameter unchanged, and leaves rows
of other tickets untouched. -/
theorem configUpsert_fill_semantics (uid : Int) (tr : ClosedTradeData)
    (cfgs : List TradeConfigRow) (cfg : TradeConfigRow) :
    (cfgs.find? (fun c => c.ticket == tr.ticket) = none →
      upsert_trade_config uid tr cfgs =
        cfgs ++ [applyConfigFill uid tr (emptyConfigRow tr.ticket)]) ∧
    (cfg.bot_id = none → (applyConfigFill uid tr cfg).bot_id = tr.bot_id) ∧
    (∀ s, cfg.bot_id = some s → s ≠ "" →
      (applyConfigFill uid tr cfg).bot_id = some s) ∧
    (∀ m, cfg.magic_number = some m → m ≠ 0 →
      (applyConfigFill uid tr cfg).magic_number = some m) ∧
    (∀ m, cfg.magic_number = some 0 → tr.magic = some m →
      (applyConfigFill uid tr cfg).magic_number = some m) ∧
    (∀ p, tr.profit = some p →
      (applyConfigFill uid tr cfg).profit_loss = some p) ∧
    (tr.profit = none →
      (applyConfigFill uid tr cfg).profit_loss = cfg.profit_loss) ∧
    (∀ c, tr.change_percent = some c →
      (applyConfigFill uid tr cfg).change_percent = some c) ∧
    (tr.change_percent = none →
      (applyConfigFill uid tr cfg).change_percent = cfg.change_percent) ∧
    (∀ v, cfg.entry_time = some v →
      (applyConfigFill uid tr cfg).entry_time = some v) ∧
    ((applyConfigFill uid tr cfg).max_risk_per_trade = cfg.max_risk_per_trade ∧
     (applyConfigFill uid tr cfg).trade_size_usd = cfg.trade_size_usd ∧
     (applyConfigFill uid tr cfg).leverage = cfg.leverage ∧
     (applyConfigFill uid tr cfg).stop_loss_pips = cfg.stop_loss_pips ∧
     (applyConfigFill uid tr cfg).take_profit_pips = cfg.take_profit_pips ∧
     (applyConfigFill uid tr cfg).rsi_period = cfg.rsi_period ∧
     (applyConfigFill uid tr cfg).auto_trading_enabled = cfg.auto_trading_enabled) ∧
    (∀ c2 ∈ cfgs, c2.ticket ≠ tr.ticket →
      c2 ∈ upsert_trade_config uid tr cfgs) := by
  refine ⟨?_, ?_, ?_, ?_, ?_, ?_, ?_, ?_, ?_, ?_, ?_, ?_⟩
  · intro h
    unfold upsert_trade_config
    rw [h]
  · intro h
    simp [applyConfigFill, pyOrStr, h]
  · intro s hs hne
    simp [applyConfigFill, pyOrStr, hs, hne]
  · intro m hm hne
    simp [applyConfigFill, pyOrInt, hm, hne]
    cases tr.magic <;> simp [pyOrInt, hne]
  · intro m hm htr
    simp [applyConfigFill, pyOrInt, hm, htr]
  · intro p hp
    simp [applyConfigFill, hp]
  · intro hp
    simp [applyConfigFill, hp]
  · intro c hc
    simp [applyConfigFill, hc]
  · intro hc
    simp [applyConfigFill, hc]
  · intro v hv
    cases htr : tr.time <;> simp [applyConfigFill, htr, hv]
  · exact ⟨rfl, rfl, rfl, rfl, rfl, rfl, rfl⟩
  · intro c2 hc2 hne
    unfold upsert_trade_config
    cases h : cfgs.find? (fun c => c.ticket == tr.ticket) with
    | none => exact List.mem_append_left _ hc2
    | some c0 =>
      exact mem_updateFirst_of_not _ _ cfgs c2 hc2 (by simp [hne])

/-- Claim C7 amended, witness: the creation branch applied to an empty
configuration table. -/
theorem configUpsert_fill_semantics_witness :
    upsert_trade_config 1 tradeMagicFive [] =
      [] ++ [applyConfigFill 1 tradeMagicFive
        (emptyConfigRow tradeMagicFive.ticket)] :=
  (configUpsert_fill_semantics 1 tradeMagicFive [] (emptyConfigRow 42)).1 rfl

/-- Claim C4, counterexample: for ticket 555 present at poll N, absent
at poll N+1, with the matching opposite-side deal found in the
window, the monitor emits TWO position_closed events — one from the
immediate snapshot-diff handler (lines 944-984) and one from
process_closed_positions (line 987 and lines 1189-1258) — and neither
payload carries estimated=false (the deal-based payload has no
estimated key at all). -/
theorem doubleEmission_scenario :
    ((monitorCycleClosedEvents [] 1100 [pos555] [] [deal555] [deal555]).filter
      (fun e => e.etype == "position_closed" && e.data.ticket == 555)).length
      = 2 ∧
    ∀ e ∈ monitorCycleClosedEvents [] 1100 [pos555] [] [deal555] [deal555],
      e.data.estimated ≠ some false := by
  constructor
  · rfl
  · intro e he
    have hev : monitorCycleClosedEvents [] 1100 [pos555] [] [deal555] [deal555] =
        [⟨"position_closed", formatClosedTradeData [] pos555 deal555⟩,
         ⟨"position_closed", formatClosedTradeData [] pos555 deal555⟩] := rfl
    rw [hev] at he
    simp only [List.mem_cons, List.not_mem_nil, or_false] at he
    have hnone : (formatClosedTradeData [] pos555 deal555).estimated = none := rfl
    rcases he with rfl | rfl <;> simp [hnone]

/-- Claim C4, amended: in the scenario (tracked position present at
poll N, absent at N+1, a matching BUY/SELL deal with its positionId in
both deal windows) the cycle emits exactly two position_closed events,
both built from the deal, and the deal-based payload omits the
estimated flag instead of carrying estimated=false. -/
theorem doubleEmission_general (bots : List (String × Int)) (now : Int)
    (pos : Position) (d : Deal)
    (hpid : d.position_id = pos.ticket) (htype : d.type = 0 ∨ d.type = 1) :
    monitorCycleClosedEvents bots now [pos] [] [d] [d] =
      [⟨"position_closed", formatClosedTradeData bots pos d⟩,
       ⟨"position_closed", formatClosedTradeData bots pos d⟩] ∧
    (formatClosedTradeData bots pos d).estimated = none := by
  constructor
  · rcases htype with h | h <;>
      simp [monitorCycleClosedEvents, monitorImmediateClosed,
        processClosedPositions, selectClosingDeal, hpid, h]
  · rfl

/-- Claim C4 amended, witness: the double emission evaluated on the
concrete ticket-555 scenario. -/
theorem doubleEmission_general_witness :
    monitorCycleClosedEvents [] 1100 [pos555] [] [deal555] [deal555] =
      [⟨"position_closed", formatClosedTradeData [] pos555 deal555⟩,
       ⟨"position_closed", formatClosedTradeData [] pos555 deal555⟩] ∧
    (formatClosedTradeData [] pos555 deal555).estimated = none :=
  doubleEmission_general [] 1100 pos555 deal555 (by decide) (by decide)

/-- Helper: the store never touches the registered users. -/
theorem store_users (tr : ClosedTradeData) (db : Db) :
    (store_trade_record tr db).users = db.users := by
  unfold store_trade_record
  cases h : db.users.min? with
  | none => rfl
  | some uid =>
    cases hf : db.trade_records.find? (fun r => r.ticket == tr.ticket) <;>
      simp [hf]

/-- Helper: how one store call changes the per-ticket record count:
unchanged when no user exists or a record for the trade's ticket is
already present; otherwise exactly the trade's own ticket gains one
record. -/
theorem countTicket_store (tr : ClosedTradeData) (db : Db) (t : Int) :
    countTicket (store_trade_record tr db) t =
      if db.users.min? = none then countTicket db t
      else if (db.trade_records.find? (fun r => r.ticket == tr.ticket)).isSome
      then countTicket db t
      else countTicket db t + (if tr.ticket = t then 1 else 0) := by
  unfold store_trade_record countTicket
  cases h : db.users.min? with
  | none => simp [h]
  | some uid =>
    cases hf : db.trade_records.find? (fun r => r.ticket == tr.ticket) with
    | some r => simp [h, hf]
    | none =>
      simp only [h, hf, Option.isSome_none, Bool.false_eq_true, if_false,
        reduceCtorEq, ite_false, List.filter_append, List.length_append]
      by_cases ht : tr.ticket = t
      · simp [newTradeRecordRow, ht]
      · simp [newTradeRecordRow, ht]

/-- Helper: a zero record count for a ticket means the dedup lookup
finds nothing. -/
theorem find?_eq_none_of_count_zero (db : Db) (x : Int)
    (h : countTicket db x = 0) :
    db.trade_records.find? (fun r => r.ticket == x) = none := by
  rw [List.find?_eq_none]
  intro r hr hp
  have hmem : r ∈ db.trade_records.filter (fun r => r.ticket == x) :=
    List.mem_filter.mpr ⟨hr, hp⟩
  have hnil := List.length_eq_zero.mp h
  rw [hnil] at hmem
  simp at hmem

/-- Helper: a positive record count for a ticket means the dedup
lookup succeeds. -/
theorem find?_isSome_of_count_pos (db : Db) (x : Int)
    (h : 0 < countTicket db x) :
    (db.trade_records.find? (fun r => r.ticket == x)).isSome := by
  rw [List.find?_isSome]
  unfold countTicket at h
  rcases List.exists_mem_of_length_pos h with ⟨r, hr⟩
  have hf := List.mem_filter.mp hr
  exact ⟨r, hf.1, hf.2⟩

/-- Helper: an absent dedup-lookup result means a zero record count. -/
theorem count_zero_of_find?_none (db : Db) (x : Int)
    (h : db.trade_records.find? (fun r => r.ticket == x) = none) :
    countTicket db x = 0 := by
  unfold countTicket
  rw [List.length_eq_zero, List.filter_eq_nil_iff]
  intro a ha
  exact List.find?_eq_none.mp h a ha

/-- Helper: one store call preserves the at-most-one-record-per-ticket
invariant. -/
theorem store_preserves_le_one (tr : ClosedTradeData) (db : Db) (t : Int)
    (h : countTicket db t ≤ 1) :
    countTicket (store_trade_record tr db) t ≤ 1 := by
  rw [countTicket_store]
  split_ifs with h1 h2 h3
  · exact h
  · exact h
  · have h0 : countTicket db tr.ticket = 0 :=
      count_zero_of_find?_none db tr.ticket (Option.not_isSome_iff_eq_none.mp h2)
    rw [← h3, h0]
  · simpa using h

/-- Helper: any sequence of store calls preserves the invariant. -/
theorem stores_preserve_le_one (trades : List ClosedTradeData) (db : Db)
    (t : Int) (h : countTicket db t ≤ 1) :
    countTicket (trades.foldl (fun d x => store_trade_record x d) db) t ≤ 1 := by
  induction trades generalizing db with
  | nil => exact h
  | cons x xs ih =>
    rw [List.foldl_cons]
    exact ih (store_trade_record x db) (store_preserves_le_one x db t h)

/-- Claim C1: store_trade_record is idempotent per ticket in the
single-greenlet execution model in which all of its call sites run
(fast path and slow path are invoked sequentially from the monitor
loop): any call sequence keeps at most one stored record per ticket,
and two calls with the same fresh ticket leave exactly one record. -/
theorem store_trade_record_idempotent (db : Db) (t : Int)
    (trades : List ClosedTradeData) (tr1 tr2 : ClosedTradeData)
    (hle : countTicket db t ≤ 1)
    (husers : db.users ≠ [])
    (h0 : countTicket db tr1.ticket = 0)
    (ht : tr2.ticket = tr1.ticket) :
    countTicket (trades.foldl (fun d x => store_trade_record x d) db) t ≤ 1 ∧
    countTicket (store_trade_record tr2 (store_trade_record tr1 db))
      tr1.ticket = 1 := by
  constructor
  · exact stores_preserve_le_one trades db t hle
  · have hminne : ¬ db.users.min? = none := by
      cases hu : db.users with
      | nil => exact absurd hu husers
      | cons a as => simp [List.min?_cons']
    have hfind1 : db.trade_records.find? (fun r => r.ticket == tr1.ticket) =
        none := find?_eq_none_of_count_zero db tr1.ticket h0
    have hc1 : countTicket (store_trade_record tr1 db) tr1.ticket = 1 := by
      rw [countTicket_store]
      rw [if_neg hminne, hfind1]
      simp [h0]
    have husers1 : (store_trade_record tr1 db).users.min? = db.users.min? := by
      rw [store_users]
    have hsome2 : ((store_trade_record tr1 db).trade_records.find?
        (fun r => r.ticket == tr2.ticket)).isSome := by
      rw [ht]
      exact find?_isSome_of_count_pos (store_trade_record tr1 db) tr1.ticket
        (by rw [hc1]; norm_num)
    rw [countTicket_store, husers1, if_neg hminne, if_pos hsome2]
    exact hc1

/-- Claim C1, witness: two stores of the same ticket-5 trade into a
one-user empty store leave exactly one record. -/
theorem store_trade_record_idempotent_witness :
    countTicket (([] : List ClosedTradeData).foldl
      (fun d x => store_trade_record x d) ⟨[1], [], []⟩) 5 ≤ 1 ∧
    countTicket (store_trade_record (mkTrade 5)
      (store_trade_record (mkTrade 5) ⟨[1], [], []⟩)) (mkTrade 5).ticket = 1 :=
  store_trade_record_idempotent ⟨[1], [], []⟩ 5 [] (mkTrade 5) (mkTrade 5)
    (by decide) (by decide) (by decide) rfl

/-- Claim C8, counterexample: the trim keeps the last 500 elements of
the Python set's ENUMERATION order, which is unordered (for small
integer tickets CPython iterates in value order, never insertion
order), so the kept tickets need not be the most recently added 500.
With tickets 1..1000 already present and 1001 newly added, an
enumeration such as the reversal of the insertion order keeps
500, 499, ..., 1 instead of the most recent 502, ..., 1001. -/
theorem trim_not_most_recent :
    ¬ (∀ enum : List Int → List Int,
        (∀ l, (enum l).Perm l) → keepsMostRecent500 enum) := by
  intro h
  have hnc : asc1000.contains (1001 : Int) = false := by decide
  have hmem : (1001 : Int) ∉ asc1000 := by decide
  have hadd : addDealTickets asc1000 [dealNew] = asc1000 ++ [1001] := by
    simp [addDealTickets, dealNew, hnc, hmem]
  have hlen1000 : asc1000.length = 1000 := by
    rw [asc1000, List.length_map, List.length_range]
  have hlen : (addDealTickets asc1000 [dealNew]).length > 1000 := by
    rw [hadd, List.length_append, hlen1000]
    norm_num
  have h2 := h List.reverse (fun l => l.reverse_perm) asc1000 [dealNew] hlen
  have hne : ¬ (checkForNewDealsSet List.reverse asc1000 [dealNew] =
      (addDealTickets asc1000 [dealNew]).drop
        ((addDealTickets asc1000 [dealNew]).length - 500)) := by decide
  exact hne h2

/-- Helper: the per-pass additions only grow the processed set. -/
theorem subset_addDealTickets (deals : List Deal) (known : List Int)
    (x : Int) (hx : x ∈ known) : x ∈ addDealTickets known deals := by
  induction deals generalizing known with
  | nil => exact hx
  | cons d ds ih =>
    have hstep : addDealTickets known (d :: ds) =
        addDealTickets (if known.contains d.ticket then known
          else if d.type = 0 ∨ d.type = 1 then known ++ [d.ticket]
          else known) ds := rfl
    rw [hstep]
    apply ih
    split_ifs with h1 h2
    · exact hx
    · exact List.mem_append_left _ hx
    · exact hx

/-- Helper: every BUY/SELL deal of the pass ends up in the processed
set before the trim. -/
theorem mem_addDealTickets_of_deal (deals : List Deal) (known : List Int)
    (d : Deal) (hd : d ∈ deals) (htype : d.type = 0 ∨ d.type = 1) :
    d.ticket ∈ addDealTickets known deals := by
  induction deals generalizing known with
  | nil => simp at hd
  | cons d0 ds ih =>
    have hstep : addDealTickets known (d0 :: ds) =
        addDealTickets (if known.contains d0.ticket then known
          else if d0.type = 0 ∨ d0.type = 1 then known ++ [d0.ticket]
          else known) ds := rfl
    rw [hstep]
    rcases List.mem_cons.mp hd with rfl | hd2
    · apply subset_addDealTickets
      by_cases h1 : known.contains d.ticket = true
      · rw [if_pos h1]
        simpa using h1
      · rw [if_neg h1, if_pos htype]
        exact List.mem_append_right _ (List.mem_singleton_self _)
    · exact ih _ hd2

/-- Helper: above the threshold the trim keeps exactly 500 tickets. -/
theorem trimDeals_length (enum : List Int → List Int)
    (henum : ∀ l, (enum l).Perm l) (k : List Int) (h : k.length > 1000) :
    (trimDeals enum k).length = 500 := by
  unfold trimDeals
  rw [if_pos h, List.length_drop]
  have hp := (henum k).length_eq
  omega

/-- Helper: at or below the threshold the trim is the identity. -/
theorem trimDeals_id (enum : List Int → List Int) (k : List Int)
    (h : k.length ≤ 1000) : trimDeals enum k = k := by
  unfold trimDeals
  rw [if_neg (by omega)]

/-- Helper: the trim never invents tickets. -/
theorem trimDeals_subset (enum : List Int → List Int)
    (henum : ∀ l, (enum l).Perm l) (k : List Int) (x : Int)
    (hx : x ∈ trimDeals enum k) : x ∈ k := by
  unfold trimDeals at hx
  split_ifs at hx with h
  · exact (henum k).mem_iff.mp (List.mem_of_mem_drop hx)
  · exact hx

/-- Claim C8, amended: every new BUY/SELL deal ticket is added to the
processed-deal set; once a pass leaves it above 1000 entries it is
trimmed to exactly 500 tickets taken from the set's arbitrary
enumeration order (so it stays bounded and no tickets are invented),
but which 500 survive depends on that enumeration, not on recency —
eviction is not oldest-first. -/
theorem processedDealSet_bounded (enum : List Int → List Int)
    (henum : ∀ l, (enum l).Perm l) (known : List Int) (deals : List Deal) :
    (∀ d ∈ deals, (d.type = 0 ∨ d.type = 1) →
      d.ticket ∈ addDealTickets known deals) ∧
    ((addDealTickets known deals).length > 1000 →
      (checkForNewDealsSet enum known deals).length = 500) ∧
    ((addDealTickets known deals).length ≤ 1000 →
      checkForNewDealsSet enum known deals = addDealTickets known deals) ∧
    (∀ x ∈ checkForNewDealsSet enum known deals,
      x ∈ addDealTickets known deals) := by
  refine ⟨?_, ?_, ?_, ?_⟩
  · intro d hd htype
    exact mem_addDealTickets_of_deal deals known d hd htype
  · intro h
    exact trimDeals_length enum henum _ h
  · intro h
    exact trimDeals_id enum _ h
  · intro x hx
    exact trimDeals_subset enum henum _ x hx

/-- Claim C8 amended, witness: a single new BUY deal on an empty set,
with the identity enumeration. -/
theorem processedDealSet_bounded_witness :
    (∀ d ∈ ([dealNew] : List Deal), (d.type = 0 ∨ d.type = 1) →
      d.ticket ∈ addDealTickets [] [dealNew]) ∧
    ((addDealTickets [] [dealNew]).length > 1000 →
      (checkForNewDealsSet id [] [dealNew]).length = 500) ∧
    ((addDealTickets [] [dealNew]).length ≤ 1000 →
      checkForNewDealsSet id [] [dealNew] = addDealTickets [] [dealNew]) ∧
    (∀ x ∈ checkForNewDealsSet id [] [dealNew],
      x ∈ addDealTickets [] [dealNew]) :=
  processedDealSet_bounded id (fun l => List.Perm.refl l) [] [dealNew]

end TP
